import Mathlib

/-!
Shallow embedding of the typix provider-adapter layer (Doubao and Qwen
image-generation adapters) and of the password-update service/route, with
theorems checking the natural-language specification against the code.

Sources embedded:
  * src/src/server/ai/provider/doubao.ts  (Doubao and Qwen adapters)
  * src/src/server/service/auth/index.ts  (updatePassword)
  * src/src/server/api/routes/settings.ts (updatePassword route)

Helpers imported by the adapters (`findModel`, `chooseAblility`,
`base64ToDataURI`, `fetchUrlToDataURI`, `GenError`) live outside the
provided sources; those are modelled from the spec and marked as such.
Network and database effects are represented by explicit oracle records,
so each `generate` call is a pure function of the request and the oracle.
-/

namespace Typix

/-- The closed set of classified error reasons (`GenerationResult.errorReason`). -/
inductive ErrorReason
  | CONFIG_ERROR
  | TOO_MANY_REQUESTS
  | PROMPT_FLAGGED
deriving DecidableEq, Repr

/-- The uniform result returned by `generate`: data-URI images plus an
optional error reason (absent field modelled as `none`). -/
structure GenerationResult where
  images : List String
  errorReason : Option ErrorReason := none
deriving DecidableEq, Repr

/-- Errors thrown inside `generate`.  `genError` is the `GenError` class
(modelled from the spec: `GenError` from `@/server/lib/types` carries one
of the three reasons).  `apiError` is a plain `new Error(message)` thrown
by the adapters.  `notFoundError` / `unsupportedAbilityError` come from the
catalog helpers.  `external` is any other thrown value (network failure,
parse error, ...) carrying an optional numeric `status` marker. -/
inductive ThrownError
  | genError (reason : ErrorReason)
  | apiError (message : String)
  | notFoundError (message : String)
  | unsupportedAbilityError (message : String)
  | external (status : Option Nat) (tag : String)
deriving DecidableEq, Repr

/-- The `.status` property read by Doubao's catch handler: only raw
external errors carry a numeric status marker. -/
def ThrownError.status : ThrownError → Option Nat
  | .external s _ => s
  | _ => none

/-- A model's generation ability: text-to-image or image-to-image. -/
inductive Ability
  | t2i
  | i2i
deriving DecidableEq, Repr

/-- Supported symbolic aspect ratios. -/
inductive AspectRatio
  | r1_1
  | r16_9
  | r9_16
  | r4_3
  | r3_4
deriving DecidableEq, Repr

/-- Model catalog entry (`models` array of each provider). -/
structure ModelDescriptor where
  id : String
  name : String
  ability : Ability
  maxInputImages : Nat
  enabledByDefault : Bool
  supportedAspectRatios : List AspectRatio
deriving DecidableEq, Repr

/-- A generation request as received by `generate`.  `n = some 0` and
`n = none` are both falsy in the source's `request.n && request.n > 1`. -/
structure GenerationRequest where
  modelId : String
  prompt : String
  aspectRatio : Option AspectRatio := none
  images : Option (List String) := none
  n : Option Nat := none
deriving DecidableEq, Repr

/-- Truthiness of `request.n && request.n > 1`. -/
def GenerationRequest.nGtOne (req : GenerationRequest) : Bool :=
  match req.n with
  | some k => decide (k > 1)
  | none => false

/-- Truthiness of `request.images && request.images.length > 0`. -/
def GenerationRequest.hasImages (req : GenerationRequest) : Bool :=
  match req.images with
  | some l => decide (l.length > 0)
  | none => false

/-- Modelled from the spec: `base64ToDataURI` from `@/server/lib/util` is
the deterministic base64 → data-URI encoding (the util source is not in
the corpus; the spec calls it "the deterministic base64→data-URI
encoding"). -/
def base64ToDataURI (b64 : String) : String :=
  "data:image/png;base64," ++ b64

/-- One item of a Qwen `message.content` array. -/
structure QwenContentItem where
  image : Option String := none
  image_url : Option String := none
deriving DecidableEq, Repr

/-- One vendor image entry, covering every field probed by either adapter.
`message` stands for a present `image.message.content` array. -/
structure ImageEntry where
  b64_json : Option String := none
  url : Option String := none
  image_url : Option String := none
  base64 : Option String := none
  message : Option (List QwenContentItem) := none
deriving DecidableEq, Repr

/-- `response.ok`: status in [200, 300). -/
def httpOk (status : Nat) : Bool :=
  decide (200 ≤ status) && decide (status < 300)

/-- Modelled from the spec: `findModel` from `../types/provider` looks the
model up in the provider's catalog by id and fails with `NotFoundError`
when absent (the helper's source is not in the corpus). -/
def findModel (models : List ModelDescriptor) (modelId : String) :
    Except ThrownError ModelDescriptor :=
  match models.find? (fun m => m.id == modelId) with
  | some m => .ok m
  | none => .error (.notFoundError modelId)

/-- Modelled from the spec: `chooseAblility` from `../types/provider`.
If the request supplies input images the model's declared ability must
permit image input, otherwise it falls back to text-to-image; an
unsupported requested ability fails with `UnsupportedAbilityError` (the
helper's source is not in the corpus). -/
def chooseAblility (req : GenerationRequest) (modelAbility : Ability) :
    Except ThrownError Ability :=
  if req.hasImages then
    match modelAbility with
    | .i2i => .ok .i2i
    | .t2i => .error (.unsupportedAbilityError req.modelId)
  else
    .ok .t2i

namespace Doubao

/-- Doubao's fixed aspect-ratio → size table (`aspectRatioSizes`). -/
def aspectRatioSizes : AspectRatio → String
  | .r1_1 => "2048x2048"
  | .r16_9 => "2560x1440"
  | .r9_16 => "1440x2560"
  | .r4_3 => "2304x1728"
  | .r3_4 => "1728x2304"

/-- Doubao's model catalog. -/
def models : List ModelDescriptor :=
  [{ id := "doubao-seedream-4-5-251128"
     name := "SeedDream4.5"
     ability := .i2i
     maxInputImages := 14
     enabledByDefault := true
     supportedAspectRatios := [.r1_1, .r16_9, .r9_16, .r4_3, .r3_4] }]

/-- The JSON body Doubao POSTs: `sequential_image_generation_options` is
`some maxImages` when the options object is present, `image` is `some`
exactly when the `image` field is set. -/
structure RequestBody where
  model : String
  prompt : String
  size : Option String
  response_format : String
  sequential_image_generation : String
  sequential_image_generation_options : Option Nat
  image : Option (List String)
deriving DecidableEq, Repr

/-- Construction of Doubao's request body (lines 62–92 of `doubao.ts`). -/
def buildRequestBody (req : GenerationRequest) : RequestBody :=
  { model := req.modelId
    prompt := req.prompt
    size := req.aspectRatio.map aspectRatioSizes
    response_format := "b64_json"
    sequential_image_generation := if req.nGtOne then "auto" else "disabled"
    sequential_image_generation_options :=
      if req.nGtOne then some (min (req.n.getD 0) 15) else none
    image :=
      match req.images with
      | some imgs => if imgs.length > 0 then some imgs else none
      | none => none }

/-- The parsed success-body: which of the probed shapes are present.
`asArray` is `some` when the whole JSON value is an array. -/
structure RespJson where
  asArray : Option (List ImageEntry) := none
  data : Option (List ImageEntry) := none
  images : Option (List ImageEntry) := none
  output : Option (List ImageEntry) := none
deriving DecidableEq, Repr

/-- Doubao's ordered shape probing (lines 130–139): top-level array, then
`data`, `images`, `output`; first hit wins, otherwise empty. -/
def extractEntries (j : RespJson) : List ImageEntry :=
  match j.asArray with
  | some xs => xs
  | none =>
    match j.data with
    | some xs => xs
    | none =>
      match j.images with
      | some xs => xs
      | none => j.output.getD []

/-- Per-entry resolution (lines 143–164): `b64_json` first, then `url`
(fetch, `null` on failure), then `image_url`, then `base64`; `none` stands
for both `null` and `undefined`.  `fetchUrl u = none` models a rejected
`fetchUrlToDataURI` call. -/
def resolveEntry (fetchUrl : String → Option String) (e : ImageEntry) :
    Option String :=
  match e.b64_json with
  | some b => some (base64ToDataURI b)
  | none =>
    match e.url with
    | some u => fetchUrl u
    | none =>
      match e.image_url with
      | some u => fetchUrl u
      | none => e.base64.map base64ToDataURI

/-- Oracle for Doubao's outward effects: the POST (thrown error or HTTP
status), the parsed success body (`response.json()` may throw), the
message composed for the unclassified throw, and per-URL image fetching. -/
structure Network where
  post : RequestBody → Except ThrownError Nat
  okJson : Except ThrownError RespJson
  errorMessage : String
  fetchUrl : String → Option String

/-- The body of Doubao's `try` block (lines 67–169): catalog lookup and
ability resolution first, then the POST, then status classification, then
body-image processing. -/
def generateTry (req : GenerationRequest) (net : Network) :
    Except ThrownError GenerationResult :=
  match findModel models req.modelId with
  | .error e => .error e
  | .ok model =>
    match chooseAblility req model.ability with
    | .error e => .error e
    | .ok _ability =>
      match net.post (buildRequestBody req) with
      | .error e => .error e
      | .ok status =>
        if httpOk status then
          match net.okJson with
          | .error e => .error e
          | .ok j =>
            .ok { images :=
              ((extractEntries j).map (resolveEntry net.fetchUrl)).filterMap id }
        else if status == 401 || status == 404 then
          .ok { images := [], errorReason := some .CONFIG_ERROR }
        else if status == 429 then
          .ok { images := [], errorReason := some .TOO_MANY_REQUESTS }
        else if status == 400 then
          .ok { images := [], errorReason := some .PROMPT_FLAGGED }
        else
          .error (.apiError ("Doubao API error: " ++ net.errorMessage))

/-- Doubao's `generate` with its outer catch (lines 170–178): a thrown
error whose `.status` is 401 or 404 becomes a `CONFIG_ERROR` result, any
other thrown error is rethrown. -/
def generate (req : GenerationRequest) (net : Network) :
    Except ThrownError GenerationResult :=
  match generateTry req net with
  | .ok r => .ok r
  | .error e =>
    if e.status == some 401 || e.status == some 404 then
      .ok { images := [], errorReason := some .CONFIG_ERROR }
    else
      .error e

end Doubao

namespace Qwen

/-- Qwen's fixed aspect-ratio → size table (its own `aspectRatioSizes`). -/
def aspectRatioSizes : AspectRatio → String
  | .r1_1 => "1024*1024"
  | .r16_9 => "1792*1024"
  | .r9_16 => "1024*1792"
  | .r4_3 => "1536*1024"
  | .r3_4 => "1024*1536"

/-- Qwen's model catalog. -/
def models : List ModelDescriptor :=
  [{ id := "qwen-image"
     name := "Qwen Image"
     ability := .i2i
     maxInputImages := 3
     enabledByDefault := true
     supportedAspectRatios := [.r1_1, .r16_9, .r9_16, .r4_3, .r3_4] },
   { id := "qwen-image-max"
     name := "Qwen Image Max"
     ability := .t2i
     maxInputImages := 0
     enabledByDefault := true
     supportedAspectRatios := [.r1_1, .r16_9, .r9_16, .r4_3, .r3_4] }]

/-- The JSON body Qwen POSTs (lines 252–270): a single user message
holding one text item, plus watermark and size parameters.  The source
builds no other field. -/
structure RequestBody where
  model : String
  messageText : String
  watermark : Bool
  size : String
deriving DecidableEq, Repr

/-- Construction of Qwen's request body (lines 250–270). -/
def buildRequestBody (req : GenerationRequest) : RequestBody :=
  { model := req.modelId
    messageText := req.prompt
    watermark := false
    size :=
      match req.aspectRatio with
      | some r => aspectRatioSizes r
      | none => "1024*1024" }

/-- The parsed Qwen success-body: which of the probed shapes are present. -/
structure RespJson where
  outputChoices : Option (List ImageEntry) := none
  outputImages : Option (List ImageEntry) := none
  data : Option (List ImageEntry) := none
  images : Option (List ImageEntry) := none
deriving DecidableEq, Repr

/-- Qwen's ordered shape probing (lines 301–310): `output.choices`,
`output.images`, `data`, `images`; first hit wins, otherwise empty. -/
def extractEntries (j : RespJson) : List ImageEntry :=
  match j.outputChoices with
  | some xs => xs
  | none =>
    match j.outputImages with
    | some xs => xs
    | none =>
      match j.data with
      | some xs => xs
      | none => j.images.getD []

/-- The `for (const item of content)` loop (lines 317–340).  `some r`
means the loop returned `r` (`r = none` is the returned `null` of a failed
fetch); `none` means the loop fell through to the direct-format checks. -/
def resolveContent (fetchUrl : String → Option String) :
    List QwenContentItem → Option (Option String)
  | [] => none
  | item :: rest =>
    match item.image with
    | some img =>
      if img.startsWith "http" then some (fetchUrl img)
      else some (some (base64ToDataURI img))
    | none =>
      match item.image_url with
      | some u => some (fetchUrl u)
      | none => resolveContent fetchUrl rest

/-- The direct-format checks (lines 343–365): same chain as Doubao's. -/
def resolveDirect (fetchUrl : String → Option String) (e : ImageEntry) :
    Option String :=
  match e.b64_json with
  | some b => some (base64ToDataURI b)
  | none =>
    match e.url with
    | some u => fetchUrl u
    | none =>
      match e.image_url with
      | some u => fetchUrl u
      | none => e.base64.map base64ToDataURI

/-- Per-entry resolution for Qwen (lines 313–365): a present
`message.content` is scanned first; only when the loop falls through do
the direct-format checks run. -/
def resolveEntry (fetchUrl : String → Option String) (e : ImageEntry) :
    Option String :=
  match e.message with
  | some content =>
    match resolveContent fetchUrl content with
    | some r => r
    | none => resolveDirect fetchUrl e
  | none => resolveDirect fetchUrl e

/-- Oracle for Qwen's outward effects.  `parsedErrCode` is the result of
`JSON.parse(errorText)` followed by reading `.code` on the 400 branch: it
may itself throw (invalid JSON). -/
structure Network where
  post : RequestBody → Except ThrownError Nat
  okJson : Except ThrownError RespJson
  errorText : String
  parsedErrCode : Except ThrownError (Option String)
  fetchUrl : String → Option String

/-- The body of Qwen's `try` block (lines 248–371): no catalog lookup or
ability resolution, one POST, non-2xx statuses signalled by throwing
(`GenError` for the classified ones), then body-image processing. -/
def generateTry (req : GenerationRequest) (net : Network) :
    Except ThrownError GenerationResult :=
  match net.post (buildRequestBody req) with
  | .error e => .error e
  | .ok status =>
    if httpOk status then
      match net.okJson with
      | .error e => .error e
      | .ok j =>
        .ok { images :=
          ((extractEntries j).map (resolveEntry net.fetchUrl)).filterMap id }
    else if status == 401 || status == 404 then
      .error (.genError .CONFIG_ERROR)
    else if status == 429 then
      .error (.genError .TOO_MANY_REQUESTS)
    else if status == 400 then
      match net.parsedErrCode with
      | .error e => .error e
      | .ok code =>
        if code == some "InvalidParameter" then
          .error (.genError .PROMPT_FLAGGED)
        else
          .error (.apiError ("Qwen API error: " ++ net.errorText))
    else
      .error (.apiError ("Qwen API error: " ++ net.errorText))

/-- Qwen's `generate` with its outer catch (lines 372–380): a thrown
`GenError` becomes a returned result carrying its reason, every other
thrown error is rethrown. -/
def generate (req : GenerationRequest) (net : Network) :
    Except ThrownError GenerationResult :=
  match generateTry req net with
  | .ok r => .ok r
  | .error (.genError reason) => .ok { images := [], errorReason := some reason }
  | .error e => .error e

end Qwen

namespace Auth

/-- A row of the `account` table; `password` is `none` for social-login
accounts (nullable column), and a present empty string is also falsy in
the source's `!userAccount.password` check. -/
structure Account where
  id : String
  userId : String
  password : Option String
deriving DecidableEq, Repr

/-- Request body of `updatePassword`. -/
structure UpdatePasswordRequest where
  currentPassword : String
  newPassword : String
deriving DecidableEq, Repr

/-- The `UpdatePasswordResult` shape returned by the service. -/
structure UpdatePasswordResult where
  success : Bool
  error : Option String := none
  errorCode : Option String := none
deriving DecidableEq, Repr

/-- Oracle for the service's effects: the account select (may throw with a
message), password verification and hashing, and whether the `db.update`
call throws (`some msg`) or succeeds (`none`). -/
structure Env where
  selectResult : Except String (List Account)
  verifyPassword : String → String → Bool
  hashPassword : String → String
  updateThrows : Option String

/-- Truthiness of `!userAccount.password`: null or empty string. -/
def falsyPassword : Option String → Bool
  | none => true
  | some s => s.isEmpty

/-- `error.message || "Failed to update password"` in the catch branch. -/
def catchMessage (msg : String) : String :=
  if msg.isEmpty then "Failed to update password" else msg

/-- `authService.updatePassword` (lines 24–88 of `auth/index.ts`).
Returns the result together with the new password hash written to the
database (`none` when no write happened). -/
def updatePassword (req : UpdatePasswordRequest) (env : Env) :
    UpdatePasswordResult × Option String :=
  match env.selectResult with
  | .error msg =>
    ({ success := false, error := some (catchMessage msg) }, none)
  | .ok accounts =>
    if accounts.length == 0 then
      ({ success := false, error := some "Account not found",
         errorCode := some "accountNotFound" }, none)
    else
      match accounts.head? with
      | none =>
        ({ success := false, error := some "Account not found",
           errorCode := some "accountNotFound" }, none)
      | some userAccount =>
        if falsyPassword userAccount.password then
          ({ success := false,
             error :=
               some "This account uses social login and cannot change password",
             errorCode := some "socialLoginCannotChangePassword" }, none)
        else
          if env.verifyPassword (userAccount.password.getD "")
              req.currentPassword then
            match env.updateThrows with
            | some msg =>
              ({ success := false, error := some (catchMessage msg) }, none)
            | none =>
              ({ success := true }, some (env.hashPassword req.newPassword))
          else
            ({ success := false, error := some "Current password is incorrect",
               errorCode := some "currentPasswordIncorrect" }, none)

/-- The JSON envelope and HTTP status produced by the
`POST /settings/updatePassword` route. -/
structure RouteResponse where
  status : Nat
  code : String
  errorCode : Option String := none
  message : Option String := none
deriving DecidableEq, Repr

/-- The route handler (lines 22–45 of `routes/settings.ts`): a failed
service result becomes HTTP 400 with code "error"; the service never
throws, so the route's own 500 catch is unreachable. -/
def updatePasswordRoute (req : UpdatePasswordRequest) (env : Env) :
    RouteResponse × Option String :=
  let (result, written) := updatePassword req env
  if !result.success then
    ({ status := 400, code := "error", errorCode := result.errorCode,
       message := result.error }, written)
  else
    ({ status := 200, code := "ok" }, written)

end Auth

/-! Concrete fixtures used to instantiate the theorems below. -/

namespace Samples

/-- A plain Doubao request (catalog model, no images, no n, no ratio). -/
def dReq : GenerationRequest :=
  { modelId := "doubao-seedream-4-5-251128", prompt := "a cat" }

/-- The Doubao catalog entry, spelled out. -/
def seedream : ModelDescriptor :=
  { id := "doubao-seedream-4-5-251128"
    name := "SeedDream4.5"
    ability := .i2i
    maxInputImages := 14
    enabledByDefault := true
    supportedAspectRatios := [.r1_1, .r16_9, .r9_16, .r4_3, .r3_4] }

/-- A Doubao network oracle answering every POST with the given status. -/
def dNet (status : Nat) : Doubao.Network :=
  { post := fun _ => .ok status
    okJson := .ok {}
    errorMessage := "boom"
    fetchUrl := fun _ => none }

/-- A Qwen network oracle answering every POST with the given status and
reporting the content-policy code on the 400 body. -/
def qNet (status : Nat) : Qwen.Network :=
  { post := fun _ => .ok status
    okJson := .ok {}
    errorText := "denied"
    parsedErrCode := .ok (some "InvalidParameter")
    fetchUrl := fun _ => none }

end Samples

/-- [C1] For every generate call on either adapter whose HTTP response is
non-2xx: 401/404 yields a `CONFIG_ERROR` result with empty images, 429
yields `TOO_MANY_REQUESTS`, 400 with the vendor's content-policy code
yields `PROMPT_FLAGGED` (Doubao classifies every 400 this way, so in
particular those carrying the code), any other non-2xx status becomes an
unclassified thrown error, and in every such case the result is
independent of the success body and of image fetching (no body-image
processing). -/
theorem C1_http_status_classification
    (req : GenerationRequest) (dnet : Doubao.Network) (qnet : Qwen.Network)
    (status : Nat) (m : ModelDescriptor) (a : Ability)
    (hm : findModel Doubao.models req.modelId = .ok m)
    (ha : chooseAblility req m.ability = .ok a)
    (hd : dnet.post (Doubao.buildRequestBody req) = .ok status)
    (hq : qnet.post (Qwen.buildRequestBody req) = .ok status)
    (hnok : httpOk status = false) :
    ((status = 401 ∨ status = 404) →
      Doubao.generate req dnet =
        .ok { images := [], errorReason := some .CONFIG_ERROR } ∧
      Qwen.generate req qnet =
        .ok { images := [], errorReason := some .CONFIG_ERROR }) ∧
    (status = 429 →
      Doubao.generate req dnet =
        .ok { images := [], errorReason := some .TOO_MANY_REQUESTS } ∧
      Qwen.generate req qnet =
        .ok { images := [], errorReason := some .TOO_MANY_REQUESTS }) ∧
    (status = 400 →
      Doubao.generate req dnet =
        .ok { images := [], errorReason := some .PROMPT_FLAGGED } ∧
      (qnet.parsedErrCode = .ok (some "InvalidParameter") →
        Qwen.generate req qnet =
          .ok { images := [], errorReason := some .PROMPT_FLAGGED })) ∧
    (status ≠ 400 → status ≠ 401 → status ≠ 404 → status ≠ 429 →
      Doubao.generate req dnet =
        .error (.apiError ("Doubao API error: " ++ dnet.errorMessage)) ∧
      Qwen.generate req qnet =
        .error (.apiError ("Qwen API error: " ++ qnet.errorText))) ∧
    (∀ j f, Doubao.generate req { dnet with okJson := j, fetchUrl := f } =
      Doubao.generate req dnet) ∧
    (∀ j f, Qwen.generate req { qnet with okJson := j, fetchUrl := f } =
      Qwen.generate req qnet) := by
  refine ⟨?_, ?_, ?_, ?_, ?_, ?_⟩
  · rintro (rfl | rfl) <;>
      constructor <;>
      simp [Doubao.generate, Doubao.generateTry, Qwen.generate,
        Qwen.generateTry, hm, ha, hd, hq, hnok, httpOk]
  · rintro rfl
    constructor <;>
      simp [Doubao.generate, Doubao.generateTry, Qwen.generate,
        Qwen.generateTry, hm, ha, hd, hq, hnok, httpOk]
  · rintro rfl
    refine ⟨?_, fun hcode => ?_⟩
    · simp [Doubao.generate, Doubao.generateTry, hm, ha, hd, hnok, httpOk]
    · simp [Qwen.generate, Qwen.generateTry, hq, hcode, hnok, httpOk]
  · intro h400 h401 h404 h429
    constructor <;>
      simp [Doubao.generate, Doubao.generateTry, Qwen.generate,
        Qwen.generateTry, hm, ha, hd, hq, hnok, h400, h401, h404, h429,
        ThrownError.status]
  · intro j f
    simp [Doubao.generate, Doubao.generateTry, hm, ha, hd, hnok]
  · intro j f
    simp [Qwen.generate, Qwen.generateTry, hq, hnok]

/-- [C1] witness: on a concrete 401 response both adapters return
`CONFIG_ERROR` with empty images. -/
theorem C1_http_status_classification_witness :
    Doubao.generate Samples.dReq (Samples.dNet 401) =
      .ok { images := [], errorReason := some .CONFIG_ERROR } ∧
    Qwen.generate Samples.dReq (Samples.qNet 401) =
      .ok { images := [], errorReason := some .CONFIG_ERROR } :=
  (C1_http_status_classification Samples.dReq (Samples.dNet 401)
    (Samples.qNet 401) 401 Samples.seedream .t2i (by rfl) (by rfl) (by rfl)
    (by rfl) (by rfl)).1 (Or.inl rfl)

/-- Helper: every `ok` result of Doubao's try block has no error reason or
no images. -/
theorem Doubao.generateTry_ok_inv {req : GenerationRequest}
    {net : Doubao.Network} {r : GenerationResult}
    (h : Doubao.generateTry req net = .ok r) :
    r.errorReason = none ∨ r.images = [] := by
  unfold Doubao.generateTry at h
  repeat' split at h
  all_goals simp_all
  all_goals simp [← h]

/-- Helper: every `ok` result of Doubao's generate has no error reason or
no images. -/
theorem Doubao.generate_ok_inv {req : GenerationRequest}
    {net : Doubao.Network} {r : GenerationResult}
    (h : Doubao.generate req net = .ok r) :
    r.errorReason = none ∨ r.images = [] := by
  unfold Doubao.generate at h
  split at h
  · cases h
    exact Doubao.generateTry_ok_inv (by assumption)
  · split at h
    · cases h
      simp
    · cases h

/-- Helper: every `ok` result of Qwen's try block has no error reason. -/
theorem Qwen.generateTryOkInv {req : GenerationRequest}
    {net : Qwen.Network} {r : GenerationResult}
    (h : Qwen.generateTry req net = .ok r) :
    r.errorReason = none := by
  unfold Qwen.generateTry at h
  repeat' split at h
  all_goals simp_all
  all_goals simp [← h]

/-- Helper: every `ok` result of Qwen's generate has no error reason or
no images. -/
theorem Qwen.generateOkInv {req : GenerationRequest}
    {net : Qwen.Network} {r : GenerationResult}
    (h : Qwen.generate req net = .ok r) :
    r.errorReason = none ∨ r.images = [] := by
  unfold Qwen.generate at h
  split at h
  · cases h
    exact Or.inl (Qwen.generateTryOkInv (by assumption))
  · cases h
    simp
  · cases h

/-- [C2] For every normally terminating generate call on either adapter,
a set `errorReason` forces `images = []` (at most one of the two is
populated), and a success response with zero recognized image entries
yields `{ images := [], errorReason := none }` — success-empty, not an
error. -/
theorem C2_result_exclusivity
    (req : GenerationRequest) (dnet : Doubao.Network) (qnet : Qwen.Network) :
    (∀ r, Doubao.generate req dnet = .ok r →
      r.errorReason ≠ none → r.images = []) ∧
    (∀ r, Qwen.generate req qnet = .ok r →
      r.errorReason ≠ none → r.images = []) ∧
    (∀ m a status j,
      findModel Doubao.models req.modelId = .ok m →
      chooseAblility req m.ability = .ok a →
      dnet.post (Doubao.buildRequestBody req) = .ok status →
      httpOk status = true →
      dnet.okJson = .ok j →
      Doubao.extractEntries j = [] →
      Doubao.generate req dnet = .ok { images := [], errorReason := none }) ∧
    (∀ status j,
      qnet.post (Qwen.buildRequestBody req) = .ok status →
      httpOk status = true →
      qnet.okJson = .ok j →
      Qwen.extractEntries j = [] →
      Qwen.generate req qnet = .ok { images := [], errorReason := none }) := by
  refine ⟨?_, ?_, ?_, ?_⟩
  · intro r h hne
    rcases Doubao.generate_ok_inv h with h1 | h1
    · exact absurd h1 hne
    · exact h1
  · intro r h hne
    rcases Qwen.generateOkInv h with h1 | h1
    · exact absurd h1 hne
    · exact h1
  · intro m a status j hm ha hd hok hj hent
    simp [Doubao.generate, Doubao.generateTry, hm, ha, hd, hok, hj, hent]
  · intro status j hq hok hj hent
    simp [Qwen.generate, Qwen.generateTry, hq, hok, hj, hent]

/-- [C2] witness: a concrete 200 response whose body has no recognized
image array yields success-empty on both adapters. -/
theorem C2_result_exclusivity_witness :
    Doubao.generate Samples.dReq (Samples.dNet 200) =
      .ok { images := [], errorReason := none } ∧
    Qwen.generate Samples.dReq (Samples.qNet 200) =
      .ok { images := [], errorReason := none } :=
  ⟨(C2_result_exclusivity Samples.dReq (Samples.dNet 200)
      (Samples.qNet 200)).2.2.1 Samples.seedream .t2i 200 {} (by rfl) (by rfl)
      (by rfl) (by rfl) (by rfl) (by rfl),
   (C2_result_exclusivity Samples.dReq (Samples.dNet 200)
      (Samples.qNet 200)).2.2.2 200 {} (by rfl) (by rfl) (by rfl) (by rfl)⟩

/-- A fetch oracle with one reachable and one unreachable URL. -/
def Samples.goodBadFetch : String → Option String := fun u =>
  if u == "http://good.example/a.png" then some "data:image/png;base64,AAAA"
  else none

/-- A Doubao success body whose `data` array holds one reachable-URL entry
and one unreachable-URL entry. -/
def Samples.twoUrlJson : Doubao.RespJson :=
  { data := some [{ url := some "http://good.example/a.png" },
                  { url := some "http://bad.example/b.png" }] }

/-- Doubao oracle: 200 response with the two-URL body. -/
def Samples.dNetTwoUrl : Doubao.Network :=
  { post := fun _ => .ok 200
    okJson := .ok Samples.twoUrlJson
    errorMessage := ""
    fetchUrl := Samples.goodBadFetch }

/-- A Qwen success body whose `data` array holds the same two entries. -/
def Samples.qTwoUrlJson : Qwen.RespJson :=
  { data := some [{ url := some "http://good.example/a.png" },
                  { url := some "http://bad.example/b.png" }] }

/-- Qwen oracle: 200 response with the two-URL body. -/
def Samples.qNetTwoUrl : Qwen.Network :=
  { post := fun _ => .ok 200
    okJson := .ok Samples.qTwoUrlJson
    errorText := ""
    parsedErrCode := .ok none
    fetchUrl := Samples.goodBadFetch }

/-- [C3] On every successful vendor response the final image list is the
order-preserving per-entry resolution with failed entries dropped
(`filterMap`, no null padding) and no `errorReason`; each entry tries its
base64 field before its URL fields; a failed fetch yields `none` for that
entry alone; an unrecognized entry shape yields `none`; and a body with
one reachable-URL and one unreachable-URL entry resolves to exactly one
image. -/
theorem C3_entry_resolution
    (req : GenerationRequest) (dnet : Doubao.Network) (qnet : Qwen.Network)
    (m : ModelDescriptor) (a : Ability) (status : Nat)
    (dj : Doubao.RespJson) (qj : Qwen.RespJson)
    (hm : findModel Doubao.models req.modelId = .ok m)
    (ha : chooseAblility req m.ability = .ok a)
    (hd : dnet.post (Doubao.buildRequestBody req) = .ok status)
    (hq : qnet.post (Qwen.buildRequestBody req) = .ok status)
    (hok : httpOk status = true)
    (hdj : dnet.okJson = .ok dj)
    (hqj : qnet.okJson = .ok qj) :
    (Doubao.generate req dnet = .ok { images :=
      ((Doubao.extractEntries dj).map
        (Doubao.resolveEntry dnet.fetchUrl)).filterMap id }) ∧
    (Qwen.generate req qnet = .ok { images :=
      ((Qwen.extractEntries qj).map
        (Qwen.resolveEntry qnet.fetchUrl)).filterMap id }) ∧
    (∀ f b u iu bb, Doubao.resolveEntry f
      { b64_json := some b, url := u, image_url := iu, base64 := bb } =
      some (base64ToDataURI b)) ∧
    (∀ f b u iu bb, Qwen.resolveEntry f
      { b64_json := some b, url := u, image_url := iu, base64 := bb } =
      some (base64ToDataURI b)) ∧
    (∀ f u, f u = none → Doubao.resolveEntry f { url := some u } = none) ∧
    (∀ f, Doubao.resolveEntry f {} = none) ∧
    (∀ f, Qwen.resolveEntry f {} = none) ∧
    (([{ url := some "http://good.example/a.png" },
       { url := some "http://bad.example/b.png" }].map
        (Doubao.resolveEntry Samples.goodBadFetch)).filterMap id =
      ["data:image/png;base64,AAAA"]) := by
  refine ⟨?_, ?_, ?_, ?_, ?_, ?_, ?_, ?_⟩
  · simp [Doubao.generate, Doubao.generateTry, hm, ha, hd, hok, hdj]
  · simp [Qwen.generate, Qwen.generateTry, hq, hok, hqj]
  · intro f b u iu bb
    simp [Doubao.resolveEntry]
  · intro f b u iu bb
    simp [Qwen.resolveEntry, Qwen.resolveDirect]
  · intro f u hf
    simp [Doubao.resolveEntry, hf]
  · intro f
    simp [Doubao.resolveEntry]
  · intro f
    simp [Qwen.resolveEntry, Qwen.resolveDirect]
  · rfl

/-- [C3] witness: on the concrete two-URL response both adapters return
exactly the one reachable image. -/
theorem C3_entry_resolution_witness :
    Doubao.generate Samples.dReq Samples.dNetTwoUrl =
      .ok { images := ["data:image/png;base64,AAAA"] } ∧
    Qwen.generate Samples.dReq Samples.qNetTwoUrl =
      .ok { images := ["data:image/png;base64,AAAA"] } := by
  have h := C3_entry_resolution Samples.dReq Samples.dNetTwoUrl
    Samples.qNetTwoUrl Samples.seedream .t2i 200 Samples.twoUrlJson
    Samples.qTwoUrlJson (by rfl) (by rfl) (by rfl) (by rfl) (by rfl)
    (by rfl) (by rfl)
  exact ⟨h.1.trans (by rfl), h.2.1.trans (by rfl)⟩

/-- Whether a thrown error is a `GenError` (the `instanceof GenError` test
of Qwen's catch handler). -/
def ThrownError.isGenError : ThrownError → Bool
  | .genError _ => true
  | _ => false

/-- A Qwen oracle whose POST itself throws a non-`GenError` error carrying
a 401 status marker. -/
def Samples.qNetThrow401 : Qwen.Network :=
  { post := fun _ => .error (.external (some 401) "fetch failed")
    okJson := .ok {}
    errorText := ""
    parsedErrCode := .ok none
    fetchUrl := fun _ => none }

/-- A Doubao oracle whose POST throws the same 401-marked error. -/
def Samples.dNetThrow401 : Doubao.Network :=
  { post := fun _ => .error (.external (some 401) "fetch failed")
    okJson := .ok {}
    errorMessage := ""
    fetchUrl := fun _ => none }

/-- [C4] counterexample: in Qwen a thrown error carrying a 401 status
marker is NOT reclassified to `CONFIG_ERROR` (it propagates unchanged),
and a thrown `GenError` with no 401/404-like marker (the 429 case) does
NOT propagate unchanged — it is reclassified into a returned
`TOO_MANY_REQUESTS` result.  Both refute the claim as stated. -/
theorem C4_counterexample :
    (Qwen.generateTry Samples.dReq Samples.qNetThrow401 =
      .error (.external (some 401) "fetch failed") ∧
     Qwen.generate Samples.dReq Samples.qNetThrow401 =
      .error (.external (some 401) "fetch failed")) ∧
    (Qwen.generateTry Samples.dReq (Samples.qNet 429) =
      .error (.genError .TOO_MANY_REQUESTS) ∧
     (ThrownError.genError .TOO_MANY_REQUESTS).status = none ∧
     Qwen.generate Samples.dReq (Samples.qNet 429) =
      .ok { images := [], errorReason := some .TOO_MANY_REQUESTS }) :=
  ⟨⟨rfl, rfl⟩, rfl, rfl, rfl⟩

/-- [C4 amended] Doubao's outer catch reclassifies a thrown error whose
`.status` marker is 401 or 404 into a returned `CONFIG_ERROR` result and
rethrows every other thrown error; Qwen's outer catch instead
reclassifies exactly the thrown `GenError`s — into a returned result
carrying the `GenError`'s own reason — and rethrows every non-`GenError`
error regardless of any status marker. -/
theorem C4_outer_catch_amended
    (req : GenerationRequest) (dnet : Doubao.Network) (qnet : Qwen.Network)
    (e : ThrownError) :
    (Doubao.generateTry req dnet = .error e →
      (e.status = some 401 ∨ e.status = some 404) →
      Doubao.generate req dnet =
        .ok { images := [], errorReason := some .CONFIG_ERROR }) ∧
    (Doubao.generateTry req dnet = .error e →
      e.status ≠ some 401 → e.status ≠ some 404 →
      Doubao.generate req dnet = .error e) ∧
    (∀ r, Qwen.generateTry req qnet = .error (.genError r) →
      Qwen.generate req qnet = .ok { images := [], errorReason := some r }) ∧
    (Qwen.generateTry req qnet = .error e → e.isGenError = false →
      Qwen.generate req qnet = .error e) := by
  refine ⟨?_, ?_, ?_, ?_⟩
  · intro h hs
    unfold Doubao.generate
    rw [h]
    rcases hs with hs | hs <;> simp [hs]
  · intro h h401 h404
    unfold Doubao.generate
    rw [h]
    simp [h401, h404]
  · intro r h
    unfold Qwen.generate
    rw [h]
  · intro h hg
    unfold Qwen.generate
    rw [h]
    cases e <;> simp_all [ThrownError.isGenError]

/-- [C4 amended] witness: on a POST that throws a 401-marked non-GenError,
Doubao reclassifies to `CONFIG_ERROR` while Qwen rethrows it unchanged. -/
theorem C4_outer_catch_amended_witness :
    Doubao.generate Samples.dReq Samples.dNetThrow401 =
      .ok { images := [], errorReason := some .CONFIG_ERROR } ∧
    Qwen.generate Samples.dReq Samples.qNetThrow401 =
      .error (.external (some 401) "fetch failed") :=
  ⟨(C4_outer_catch_amended Samples.dReq Samples.dNetThrow401
      Samples.qNetThrow401 (.external (some 401) "fetch failed")).1
      (by rfl) (Or.inl rfl),
   (C4_outer_catch_amended Samples.dReq Samples.dNetThrow401
      Samples.qNetThrow401 (.external (some 401) "fetch failed")).2.2.2
      (by rfl) (by rfl)⟩

/-- A Doubao request carrying one input image. -/
def Samples.dReqImg : GenerationRequest :=
  { modelId := "doubao-seedream-4-5-251128", prompt := "a cat"
    images := some ["data:image/png;base64,IMG1"] }

/-- A Qwen request carrying one input image. -/
def Samples.qReqImg : GenerationRequest :=
  { modelId := "qwen-image", prompt := "a cat"
    images := some ["data:image/png;base64,IMG1"] }

/-- [C5] counterexample: a Qwen request with a non-empty images list
produces a request body that is identical to the body for the same
request without images, and that body (shown in full) has no field
holding them — Qwen does not attach input images, refuting the claim for
the Qwen adapter. -/
theorem C5_counterexample :
    Samples.qReqImg.images = some ["data:image/png;base64,IMG1"] ∧
    Qwen.buildRequestBody Samples.qReqImg =
      Qwen.buildRequestBody { Samples.qReqImg with images := none } ∧
    Qwen.buildRequestBody Samples.qReqImg =
      { model := "qwen-image", messageText := "a cat", watermark := false,
        size := "1024*1024" } :=
  ⟨rfl, rfl, rfl⟩

/-- [C5 amended] Doubao attaches a non-empty input-images list under the
`image` field of its request body and omits the field when the request
has no (or empty) images; Qwen's request body is independent of the
request's images list — input images are never attached. -/
theorem C5_image_attachment_amended
    (req : GenerationRequest) (imgs : List String) :
    (req.images = some imgs → imgs ≠ [] →
      (Doubao.buildRequestBody req).image = some imgs) ∧
    (req.hasImages = false → (Doubao.buildRequestBody req).image = none) ∧
    (∀ o, Qwen.buildRequestBody { req with images := o } =
      Qwen.buildRequestBody req) := by
  refine ⟨?_, ?_, ?_⟩
  · intro h hne
    simp [Doubao.buildRequestBody, h, List.length_pos, hne]
  · intro h
    unfold GenerationRequest.hasImages at h
    cases hri : req.images with
    | none => simp [Doubao.buildRequestBody, hri]
    | some l =>
      rw [hri] at h
      simp at h
      simp [Doubao.buildRequestBody, hri, h]
  · intro o
    rfl

/-- [C5 amended] witness: the concrete one-image Doubao request carries
its image under `image`; the concrete one-image Qwen request builds the
same body as its imageless variant. -/
theorem C5_image_attachment_amended_witness :
    (Doubao.buildRequestBody Samples.dReqImg).image =
      some ["data:image/png;base64,IMG1"] ∧
    Qwen.buildRequestBody { Samples.qReqImg with images := none } =
      Qwen.buildRequestBody Samples.qReqImg :=
  ⟨(C5_image_attachment_amended Samples.dReqImg
      ["data:image/png;base64,IMG1"]).1 rfl (by simp),
   (C5_image_attachment_amended Samples.qReqImg []).2.2 none⟩

/-- A request whose modelId is in neither provider's catalog. -/
def Samples.reqUnknown : GenerationRequest :=
  { modelId := "no-such-model", prompt := "a cat" }

/-- [C6] counterexample: "no-such-model" is absent from Qwen's catalog,
yet Qwen's generate does not fail with `NotFoundError` — it issues the
HTTP request and returns a success result.  Qwen performs no catalog
lookup or ability resolution, refuting the claim for the Qwen adapter. -/
theorem C6_counterexample :
    findModel Qwen.models "no-such-model" =
      .error (.notFoundError "no-such-model") ∧
    Qwen.generate Samples.reqUnknown (Samples.qNet 200) =
      .ok { images := [], errorReason := none } :=
  ⟨rfl, rfl⟩

/-- [C6 amended] Doubao's generate looks the model up in its catalog and
fails with `NotFoundError` when the modelId is absent, then resolves the
effective ability and fails with `UnsupportedAbilityError` when input
images are supplied to a model that cannot take them — in both cases for
every network oracle, i.e. before any HTTP request; Qwen's generate does
neither: it issues the request and processes the response whatever the
modelId. -/
theorem C6_catalog_lookup_amended
    (req : GenerationRequest) (dnet : Doubao.Network) (qnet : Qwen.Network) :
    (∀ msg, findModel Doubao.models req.modelId = .error (.notFoundError msg) →
      Doubao.generate req dnet = .error (.notFoundError msg)) ∧
    (∀ m msg, findModel Doubao.models req.modelId = .ok m →
      chooseAblility req m.ability = .error (.unsupportedAbilityError msg) →
      Doubao.generate req dnet = .error (.unsupportedAbilityError msg)) ∧
    (∀ j, qnet.post (Qwen.buildRequestBody req) = .ok 200 →
      qnet.okJson = .ok j →
      Qwen.generate req qnet = .ok { images :=
        ((Qwen.extractEntries j).map
          (Qwen.resolveEntry qnet.fetchUrl)).filterMap id }) := by
  refine ⟨?_, ?_, ?_⟩
  · intro msg hm
    simp [Doubao.generate, Doubao.generateTry, hm, ThrownError.status]
  · intro m msg hm ha
    simp [Doubao.generate, Doubao.generateTry, hm, ha, ThrownError.status]
  · intro j hp hj
    simp [Qwen.generate, Qwen.generateTry, hp, hj, httpOk]

/-- [C6 amended] witness: for the concrete unknown modelId Doubao fails
with `NotFoundError` while Qwen returns a success result. -/
theorem C6_catalog_lookup_amended_witness :
    Doubao.generate Samples.reqUnknown (Samples.dNet 200) =
      .error (.notFoundError "no-such-model") ∧
    Qwen.generate Samples.reqUnknown (Samples.qNet 200) =
      .ok { images := [] } :=
  ⟨(C6_catalog_lookup_amended Samples.reqUnknown (Samples.dNet 200)
      (Samples.qNet 200)).1 "no-such-model" (by rfl),
   (C6_catalog_lookup_amended Samples.reqUnknown (Samples.dNet 200)
      (Samples.qNet 200)).2.2 {} (by rfl) (by rfl)⟩

/-- A Doubao request asking for the 16:9 aspect ratio. -/
def Samples.dReq169 : GenerationRequest :=
  { modelId := "doubao-seedream-4-5-251128", prompt := "a cat"
    aspectRatio := some .r16_9 }

/-- A Doubao request asking for twenty images. -/
def Samples.dReqN20 : GenerationRequest :=
  { modelId := "doubao-seedream-4-5-251128", prompt := "a cat"
    n := some 20 }

/-- [C7] A present aspect ratio maps through the adapter's fixed lookup
table into the request body's size field (Doubao 16:9 ↦ "2560x1440",
Qwen 16:9 ↦ "1792*1024"); an absent aspect ratio gives Doubao size
`null` and Qwen size "1024*1024". -/
theorem C7_aspect_ratio_sizes (req : GenerationRequest) (r : AspectRatio) :
    (req.aspectRatio = some r →
      (Doubao.buildRequestBody req).size = some (Doubao.aspectRatioSizes r) ∧
      (Qwen.buildRequestBody req).size = Qwen.aspectRatioSizes r) ∧
    (req.aspectRatio = none →
      (Doubao.buildRequestBody req).size = none ∧
      (Qwen.buildRequestBody req).size = "1024*1024") ∧
    Doubao.aspectRatioSizes .r16_9 = "2560x1440" ∧
    Qwen.aspectRatioSizes .r16_9 = "1792*1024" := by
  refine ⟨?_, ?_, rfl, rfl⟩
  · intro h
    exact ⟨by simp [Doubao.buildRequestBody, h],
           by simp [Qwen.buildRequestBody, h]⟩
  · intro h
    exact ⟨by simp [Doubao.buildRequestBody, h],
           by simp [Qwen.buildRequestBody, h]⟩

/-- [C7] witness: the concrete 16:9 request and the concrete
ratio-less request get the table / default sizes. -/
theorem C7_aspect_ratio_sizes_witness :
    (Doubao.buildRequestBody Samples.dReq169).size = some "2560x1440" ∧
    (Qwen.buildRequestBody Samples.dReq169).size = "1792*1024" ∧
    (Doubao.buildRequestBody Samples.dReq).size = none ∧
    (Qwen.buildRequestBody Samples.dReq).size = "1024*1024" :=
  ⟨((C7_aspect_ratio_sizes Samples.dReq169 .r16_9).1 rfl).1,
   ((C7_aspect_ratio_sizes Samples.dReq169 .r16_9).1 rfl).2,
   ((C7_aspect_ratio_sizes Samples.dReq .r16_9).2.1 rfl).1,
   ((C7_aspect_ratio_sizes Samples.dReq .r16_9).2.1 rfl).2⟩

/-- [C8] Doubao batching: when `n` is absent, 0 or 1, sequential image
generation is "disabled" and the options field is absent; when `n > 1`
it is "auto" with `max_images = min(n, 15)`. -/
theorem C8_batching (req : GenerationRequest) :
    ((req.n = none ∨ req.n = some 0 ∨ req.n = some 1) →
      (Doubao.buildRequestBody req).sequential_image_generation =
        "disabled" ∧
      (Doubao.buildRequestBody req).sequential_image_generation_options =
        none) ∧
    (∀ k, req.n = some k → 1 < k →
      (Doubao.buildRequestBody req).sequential_image_generation = "auto" ∧
      (Doubao.buildRequestBody req).sequential_image_generation_options =
        some (min k 15)) := by
  constructor
  · rintro (h | h | h) <;>
      simp [Doubao.buildRequestBody, GenerationRequest.nGtOne, h]
  · intro k h hk
    simp [Doubao.buildRequestBody, GenerationRequest.nGtOne, h, hk]

/-- [C8] witness: the concrete `n = 20` request batches with
`max_images = 15`; the concrete `n`-less request disables batching. -/
theorem C8_batching_witness :
    (Doubao.buildRequestBody Samples.dReqN20).sequential_image_generation =
      "auto" ∧
    (Doubao.buildRequestBody
      Samples.dReqN20).sequential_image_generation_options = some 15 ∧
    (Doubao.buildRequestBody Samples.dReq).sequential_image_generation =
      "disabled" ∧
    (Doubao.buildRequestBody
      Samples.dReq).sequential_image_generation_options = none :=
  ⟨((C8_batching Samples.dReqN20).2 20 rfl (by decide)).1,
   ((C8_batching Samples.dReqN20).2 20 rfl (by decide)).2.trans (by rfl),
   ((C8_batching Samples.dReq).1 (Or.inl rfl)).1,
   ((C8_batching Samples.dReq).1 (Or.inl rfl)).2⟩

/-- A Doubao success body holding one base64 entry. -/
def Samples.b64Json : Doubao.RespJson :=
  { data := some [{ b64_json := some "QUJD" }] }

/-- A Qwen success body holding the same base64 entry. -/
def Samples.qB64Json : Qwen.RespJson :=
  { data := some [{ b64_json := some "QUJD" }] }

/-- Doubao oracle: 200 response with the one-base64-entry body. -/
def Samples.dNetB64 : Doubao.Network :=
  { post := fun _ => .ok 200
    okJson := .ok Samples.b64Json
    errorMessage := ""
    fetchUrl := fun _ => none }

/-- Qwen oracle: 200 response with the one-base64-entry body. -/
def Samples.qNetB64 : Qwen.Network :=
  { post := fun _ => .ok 200
    okJson := .ok Samples.qB64Json
    errorText := ""
    parsedErrCode := .ok none
    fetchUrl := fun _ => none }

/-- [C9] A success response whose single recognized entry carries a
base64 field (`b64_json` or `base64`, the other fields absent) yields
exactly one image, equal to the deterministic base64 → data-URI encoding
of that payload, on both adapters. -/
theorem C9_base64_roundtrip
    (req : GenerationRequest) (dnet : Doubao.Network) (qnet : Qwen.Network)
    (m : ModelDescriptor) (a : Ability) (status : Nat)
    (dj : Doubao.RespJson) (qj : Qwen.RespJson) (b : String) (e : ImageEntry)
    (hm : findModel Doubao.models req.modelId = .ok m)
    (ha : chooseAblility req m.ability = .ok a)
    (hd : dnet.post (Doubao.buildRequestBody req) = .ok status)
    (hq : qnet.post (Qwen.buildRequestBody req) = .ok status)
    (hok : httpOk status = true)
    (hdj : dnet.okJson = .ok dj)
    (hqj : qnet.okJson = .ok qj)
    (hde : Doubao.extractEntries dj = [e])
    (hqe : Qwen.extractEntries qj = [e])
    (he : e = { b64_json := some b } ∨ e = { base64 := some b }) :
    Doubao.generate req dnet = .ok { images := [base64ToDataURI b] } ∧
    Qwen.generate req qnet = .ok { images := [base64ToDataURI b] } := by
  rcases he with rfl | rfl <;>
    constructor <;>
    simp [Doubao.generate, Doubao.generateTry, Qwen.generate,
      Qwen.generateTry, hm, ha, hd, hq, hok, hdj, hqj, hde, hqe,
      Doubao.resolveEntry, Qwen.resolveEntry, Qwen.resolveDirect]

/-- [C9] witness: the concrete one-entry "QUJD" body yields exactly
["data:image/png;base64,QUJD"] on both adapters. -/
theorem C9_base64_roundtrip_witness :
    Doubao.generate Samples.dReq Samples.dNetB64 =
      .ok { images := ["data:image/png;base64,QUJD"] } ∧
    Qwen.generate Samples.dReq Samples.qNetB64 =
      .ok { images := ["data:image/png;base64,QUJD"] } := by
  have h := C9_base64_roundtrip Samples.dReq Samples.dNetB64 Samples.qNetB64
    Samples.seedream .t2i 200 Samples.b64Json Samples.qB64Json "QUJD"
    { b64_json := some "QUJD" } (by rfl) (by rfl) (by rfl) (by rfl)
    (by rfl) (by rfl) (by rfl) (by rfl) (by rfl) (Or.inl rfl)
  exact ⟨h.1.trans (by rfl), h.2.trans (by rfl)⟩

/-- A concrete password-change request. -/
def Samples.pwReq : Auth.UpdatePasswordRequest :=
  { currentPassword := "old-secret", newPassword := "new-secret" }

/-- An environment whose account select throws. -/
def Samples.envDbThrow : Auth.Env :=
  { selectResult := .error "db down"
    verifyPassword := fun _ _ => true
    hashPassword := fun s => "hash:" ++ s
    updateThrows := none }

/-- An account row with a stored password hash. -/
def Samples.acct : Auth.Account :=
  { id := "acc1", userId := "u1", password := some "hash-old" }

/-- An environment where every check passes and the update succeeds. -/
def Samples.envOk : Auth.Env :=
  { selectResult := .ok [Samples.acct]
    verifyPassword := fun stored supplied =>
      stored == "hash-old" && supplied == "old-secret"
    hashPassword := fun s => "hash:" ++ s
    updateThrows := none }

/-- [C10] counterexample: when the account select throws, `updatePassword`
returns `success := false` with NO `errorCode` — the thrown-error failing
path carries no distinguishing error code, refuting the claim. -/
theorem C10_counterexample :
    Auth.updatePassword Samples.pwReq Samples.envDbThrow =
      ({ success := false, error := some "db down", errorCode := none },
        none) ∧
    (Auth.updatePassword Samples.pwReq Samples.envDbThrow).1.errorCode =
      none :=
  ⟨rfl, rfl⟩

/-- [C10 amended] The stored password is written only after the account is
found, has a non-falsy password and `verifyPassword` accepts the supplied
current password; the three explicit failing paths return
`success := false` with a distinguishing `errorCode` and no write; the
thrown-error paths (select or update throwing) return `success := false`
with NO `errorCode` and no write; and the route maps every failure to
HTTP 400 with code "error" and every success to HTTP 200. -/
theorem C10_update_password_amended
    (req : Auth.UpdatePasswordRequest) (env : Auth.Env) :
    (∀ msg, env.selectResult = .error msg →
      Auth.updatePassword req env =
        ({ success := false, error := some (Auth.catchMessage msg) },
          none)) ∧
    (env.selectResult = .ok [] →
      Auth.updatePassword req env =
        ({ success := false, error := some "Account not found",
           errorCode := some "accountNotFound" }, none)) ∧
    (∀ acc tl, env.selectResult = .ok (acc :: tl) →
      Auth.falsyPassword acc.password = true →
      Auth.updatePassword req env =
        ({ success := false,
           error :=
             some "This account uses social login and cannot change password",
           errorCode := some "socialLoginCannotChangePassword" }, none)) ∧
    (∀ acc tl, env.selectResult = .ok (acc :: tl) →
      Auth.falsyPassword acc.password = false →
      env.verifyPassword (acc.password.getD "") req.currentPassword =
        false →
      Auth.updatePassword req env =
        ({ success := false, error := some "Current password is incorrect",
           errorCode := some "currentPasswordIncorrect" }, none)) ∧
    (∀ acc tl msg, env.selectResult = .ok (acc :: tl) →
      Auth.falsyPassword acc.password = false →
      env.verifyPassword (acc.password.getD "") req.currentPassword = true →
      env.updateThrows = some msg →
      Auth.updatePassword req env =
        ({ success := false, error := some (Auth.catchMessage msg) },
          none)) ∧
    (∀ acc tl, env.selectResult = .ok (acc :: tl) →
      Auth.falsyPassword acc.password = false →
      env.verifyPassword (acc.password.getD "") req.currentPassword = true →
      env.updateThrows = none →
      Auth.updatePassword req env =
        ({ success := true },
          some (env.hashPassword req.newPassword))) ∧
    (∀ res w, Auth.updatePassword req env = (res, w) →
      res.success = false →
      Auth.updatePasswordRoute req env =
        ({ status := 400, code := "error", errorCode := res.errorCode,
           message := res.error }, w)) ∧
    (∀ res w, Auth.updatePassword req env = (res, w) →
      res.success = true →
      Auth.updatePasswordRoute req env =
        ({ status := 200, code := "ok" }, w)) := by
  refine ⟨?_, ?_, ?_, ?_, ?_, ?_, ?_, ?_⟩
  · intro msg hs
    simp [Auth.updatePassword, hs]
  · intro hs
    simp [Auth.updatePassword, hs]
  · intro acc tl hs hfp
    simp [Auth.updatePassword, hs, hfp]
  · intro acc tl hs hfp hv
    simp [Auth.updatePassword, hs, hfp, hv]
  · intro acc tl msg hs hfp hv hu
    simp [Auth.updatePassword, hs, hfp, hv, hu]
  · intro acc tl hs hfp hv hu
    simp [Auth.updatePassword, hs, hfp, hv, hu]
  · intro res w h hsucc
    unfold Auth.updatePasswordRoute
    rw [h]
    simp [hsucc]
  · intro res w h hsucc
    unfold Auth.updatePasswordRoute
    rw [h]
    simp [hsucc]

/-- [C10 amended] witness: in the all-checks-pass environment the new
hash is written and the route answers 200; in the select-throwing
environment the route answers 400 with code "error" and no errorCode. -/
theorem C10_update_password_amended_witness :
    Auth.updatePassword Samples.pwReq Samples.envOk =
      ({ success := true }, some "hash:new-secret") ∧
    Auth.updatePasswordRoute Samples.pwReq Samples.envOk =
      ({ status := 200, code := "ok" }, some "hash:new-secret") ∧
    Auth.updatePasswordRoute Samples.pwReq Samples.envDbThrow =
      ({ status := 400, code := "error", errorCode := none,
         message := some "db down" }, none) := by
  have h6 := (C10_update_password_amended Samples.pwReq
    Samples.envOk).2.2.2.2.2.1 Samples.acct [] (by rfl) (by rfl) (by rfl)
    (by rfl)
  have h8 := (C10_update_password_amended Samples.pwReq
    Samples.envOk).2.2.2.2.2.2.2 { success := true }
    (some (Samples.envOk.hashPassword Samples.pwReq.newPassword)) h6
    (by rfl)
  have h1 := (C10_update_password_amended Samples.pwReq
    Samples.envDbThrow).1 "db down" (by rfl)
  have h7 := (C10_update_password_amended Samples.pwReq
    Samples.envDbThrow).2.2.2.2.2.2.1
    { success := false, error := some (Auth.catchMessage "db down") } none
    h1 (by rfl)
  exact ⟨h6.trans (by rfl), h8.trans (by rfl), h7.trans (by rfl)⟩

end Typix
